import Mathlib

/-!
Verification development for the Wikitext VS Code extension's preview
rendering pipeline (`src/export_command/wikimedia_function/view.ts`,
`src/export_command/wikimedia_function/wmcore.ts`).

The TypeScript sources are shallowly embedded: each exported function that a
claim touches becomes an executable Lean definition over explicit inputs
(configuration values, user inputs, the decoded API response) producing the
list of externally visible effects (webview creation, HTML/title writes, the
HTTP request, user-facing messages) plus the resulting module state.
JavaScript string semantics that the code relies on (first-occurrence
`String.replace`, `${...}` interpolation of `undefined`, truthiness of `||`
and `? :`) are modelled explicitly.
-/

namespace Wikitext

/-! ## JavaScript string primitives -/

/-- JS template interpolation of a `string | undefined` value:
`` `${x}` `` renders `undefined` as the literal text `"undefined"`. -/
def jsTemplate : Option String → String
  | some s => s
  | none => "undefined"

/-- JS `x || ""` for a string `x`: the empty string is falsy. -/
def jsOrElse (a b : String) : String :=
  if a = "" then b else a

/-- JS truthiness of a `string | undefined` value. -/
def truthyStr : Option String → Bool
  | some s => s ≠ ""
  | none => false

/-- Split `s` at the first occurrence of `pat` (both as char lists):
`some (pre, post)` with `s = pre ++ pat ++ post` and no occurrence of `pat`
ending earlier, or `none` when `pat` does not occur. -/
def splitFirstAux (pat : List Char) : List Char → Option (List Char × List Char)
  | [] => if pat.isEmpty then some ([], []) else none
  | c :: tl =>
    if pat.isPrefixOf (c :: tl) then some ([], (c :: tl).drop pat.length)
    else (splitFirstAux pat tl).map (fun pr => (c :: pr.1, pr.2))

/-- Split a string at the first occurrence of a pattern. -/
def splitFirst (s pat : String) : Option (String × String) :=
  (splitFirstAux pat.data s.data).map (fun pr => (String.mk pr.1, String.mk pr.2))

/-- Substring occurrence test (via first-occurrence search). -/
def strContains (s sub : String) : Bool :=
  (splitFirstAux sub.data s.data).isSome

def dollarChar : Char := Char.ofNat 36

def backtickChar : Char := Char.ofNat 96

def singleQuoteChar : Char := Char.ofNat 39

/-- Expansion of the JS replacement-string `$`-patterns used by
`String.prototype.replace` with a string pattern (no capture groups):
`$$` is a literal dollar, `$&` the matched text, a dollar followed by a
backtick the part before the match, a dollar followed by a single quote the
part after it; any other `$x` passes through unchanged. -/
def expandRepl (before matched after : List Char) : List Char → List Char
  | [] => []
  | c :: rest =>
    if c = dollarChar then
      match rest with
      | [] => [c]
      | d :: rest2 =>
        if d = dollarChar then dollarChar :: expandRepl before matched after rest2
        else if d = '&' then matched ++ expandRepl before matched after rest2
        else if d = backtickChar then before ++ expandRepl before matched after rest2
        else if d = singleQuoteChar then after ++ expandRepl before matched after rest2
        else c :: expandRepl before matched after (d :: rest2)
    else c :: expandRepl before matched after rest

/-- JS `s.replace(pat, repl)` with a string `pat`: replaces only the first
occurrence, applying `$`-pattern expansion to `repl`. -/
def jsReplaceFirst (s pat repl : String) : String :=
  match splitFirst s pat with
  | none => s
  | some (pre, post) =>
    pre ++ String.mk (expandRepl pre.data pat.data post.data repl.data) ++ post

/-! ## The PAGE_INFO stripper (`view.ts` line 30)

`sourceText.replace(/\<%\-\-\s*\[PAGE_INFO\][\s\S]*?\[END_PAGE_INFO\]\s*\-\-%\>\s*/, "")`
— a non-global regex, so only the leftmost match is removed.  The matcher
below implements exactly this pattern: the literal `<%--`, optional
whitespace, `[PAGE_INFO]`, a lazy arbitrary body up to the first
`[END_PAGE_INFO]` that is followed (after optional whitespace) by `--%>`,
and finally the match greedily absorbs trailing whitespace. -/

/-- JS `\s` whitespace class (the ASCII members plus NBSP and BOM, the
code points MediaWiki text realistically contains). -/
def isJsWs (c : Char) : Bool :=
  c = ' ' || c = '\t' || c = '\n' || c = '\r' ||
  c = Char.ofNat 11 || c = Char.ofNat 12 || c = Char.ofNat 160 || c = Char.ofNat 65279

/-- Greedily consume `\s*`. -/
def munchWs : List Char → List Char
  | [] => []
  | c :: tl => if isJsWs c then munchWs tl else c :: tl

/-- If `pat` is a prefix of `s`, return the remainder. -/
def dropLit (pat : List Char) (s : List Char) : Option (List Char) :=
  if pat.isPrefixOf s then some (s.drop pat.length) else none

/-- The lazy `[\s\S]*?\[END_PAGE_INFO\]\s*\-\-%\>` tail: grow the lazy body one
character at a time; at each position try `[END_PAGE_INFO]` and, when it
matches, require `\s*` then `--%>`; otherwise keep growing. Returns the
remainder after `--%>`. -/
def matchEndTail : List Char → Option (List Char)
  | [] => none
  | c :: tl =>
    match dropLit "[END_PAGE_INFO]".data (c :: tl) with
    | some after =>
      match dropLit "--%>".data (munchWs after) with
      | some rest => some rest
      | none => matchEndTail tl
    | none => matchEndTail tl

/-- Try to match the whole PAGE_INFO pattern at the head of `s`; on success
return the remainder after the match (trailing `\s*` consumed). -/
def matchPageInfoAt (s : List Char) : Option (List Char) :=
  match dropLit "<%--".data s with
  | none => none
  | some r1 =>
    match dropLit "[PAGE_INFO]".data (munchWs r1) with
    | none => none
    | some r2 =>
      match matchEndTail r2 with
      | none => none
      | some r3 => some (munchWs r3)

/-- Remove the leftmost match of the PAGE_INFO pattern (with its trailing
whitespace); when no match exists the text is unchanged. -/
def stripGo : List Char → List Char
  | [] => []
  | c :: tl =>
    match matchPageInfoAt (c :: tl) with
    | some rest => rest
    | none => c :: stripGo tl

/-- `view.ts` line 30: the text actually previewed — the document's text with
the first `<%-- [PAGE_INFO] ... [END_PAGE_INFO] --%>` block and its trailing
whitespace removed. -/
def stripPageInfo (s : String) : String :=
  String.mk (stripGo s.data)

example : stripPageInfo "<%-- [PAGE_INFO] a=b [END_PAGE_INFO] --%>  body" = "body" := by decide

example : stripPageInfo "no block here" = "no block here" := by decide

example : jsReplaceFirst "a<head>b<head>c" "<head>" "<head>X" = "a<head>Xb<head>c" := by decide

/-! ## Data model

The decoded shape of an `action=parse` response
(`interface_definition/getViewInterface.ts` output as consumed by
`view.ts`/`wmcore.ts`): every field is optional. -/

/-- A `{"*": ...}` payload node. -/
structure StarNode where
  star : Option String := none
deriving DecidableEq, Repr

/-- The `parse` node of a parse-API response. -/
structure ParseNode where
  text : Option StarNode := none
  displaytitle : Option String := none
  headhtml : Option StarNode := none
  categorieshtml : Option StarNode := none
deriving DecidableEq, Repr

/-- A top-level API error object (`code`/`info`). -/
structure ApiError where
  code : String
  info : String
deriving DecidableEq, Repr

/-- The decoded result consumed by `getView` and `viewPage`. -/
structure GetViewResult where
  parse : Option ParseNode := none
  error : Option ApiError := none
deriving DecidableEq, Repr

/-- The relevant `wikitext.*` workspace configuration values. -/
structure Config where
  getCss : Bool := false
  previewCssStyle : String := ""
  enableJavascript : Bool := false
  transferProtocol : String := "https://"
  articlePath : String := "/wiki/"
  redirects : Bool := false
deriving DecidableEq, Repr

/-- The request parameters assembled for the parse action. -/
structure ParseArgs where
  action : String := "parse"
  text : Option String := none
  page : Option String := none
  prop : String := ""
  contentmodel : Option String := none
  pst : Option String := none
  disableeditsection : Option String := none
  redirects : Option String := none
deriving DecidableEq, Repr

/-- Modelled from the spec: `alterNativeValues` (`args.ts`/`mediawiki.ts`,
not under `src/`) combines the supplied property flags into the single
`prop` value sent to the API. -/
def alterNativeValues (vals : List (Option String)) : String :=
  String.intercalate "|" (vals.filterMap id)

/-- Outcome of the awaited `tbot.request(args)` call: the mwbot collaborator
either fulfills with a decoded result or rejects with an error object
carrying `code`/`info` (mwbot rejects on API-level errors). -/
inductive RequestOutcome where
  | resolve (re : GetViewResult)
  | reject (e : ApiError)
deriving DecidableEq, Repr

/-- Externally visible effects of the pipelines. -/
inductive Event where
  | createPanel (id : Nat) (title : String)
  | setHtml (id : Nat) (html : String)
  | setTitle (id : Nat) (title : String)
  | request (args : ParseArgs)
  | errorMsg (msg : String)
  | warnMsg (msg : String)
  | infoMsg (msg : String)
  | openDoc (content : Option String) (language : Option String)
  | editRequest (title content summary : String)
deriving DecidableEq, Repr

/-- A webview panel: its displayed HTML document and its title. -/
structure Panel where
  id : Nat
  html : String := ""
  title : String
deriving DecidableEq, Repr

/-- Module-level mutable state of `view.ts`: the tracked live-preview panel
(`previewCurrentPlanel`) and a fresh-id supply counting panels created so
far. -/
structure ExtState where
  tracked : Option Nat := none
  panels : Nat := 0
deriving DecidableEq, Repr

/-! ## HTML assembly (`view.ts` lines 123-146) -/

/-- `showHtmlInfo` (`view.ts` line 123-125). -/
def showHtmlInfo (info : String) : String :=
  "<!DOCTYPE html><html><body><h2>" ++ info ++ "</h2></body></html>"

def loadingHtml : String := showHtmlInfo "Loading..."

def errorHtml : String := showHtmlInfo "Error"

/-- `view.ts` line 134: note the stray double quote after `/>` present in the
source template literal. -/
def baseElemOf (baseURI : String) : String :=
  "<base href=\"" ++ baseURI ++ "\" />\""

/-- `view.ts` line 136. -/
def styleOf (cfg : Config) : String :=
  "<style>" ++ cfg.previewCssStyle ++ "</style>"

/-- `view.ts` line 138: `re.parse.headhtml?.["*"]?.replace("<head>", "<head>"
+ baseElem + style) ?? ...` — inject into the supplied head fragment, else
synthesize a minimal head. -/
def assembleHead (cfg : Config) (baseURI : String) (pn : ParseNode) : String :=
  match pn.headhtml.bind StarNode.star with
  | some h => jsReplaceFirst h "<head>" ("<head>" ++ baseElemOf baseURI ++ styleOf cfg)
  | none => "<!DOCTYPE html><html><head>" ++ baseElemOf baseURI ++ styleOf cfg ++ "</head><body>"

/-- `view.ts` line 139: `re.parse.text?.["*"] || ""` — an absent or empty
payload (both falsy) yields the empty string. -/
def htmlTextOf (pn : ParseNode) : String :=
  match pn.text.bind StarNode.star with
  | some s => jsOrElse s ""
  | none => ""

/-- `view.ts` line 140: a truthy `categorieshtml` payload yields
`"<hr />" + payload`, anything else the empty string. -/
def htmlCategoriesOf (pn : ParseNode) : String :=
  match pn.categorieshtml.bind StarNode.star with
  | some c => if c = "" then "" else "<hr />" ++ c
  | none => ""

/-- `view.ts` line 143: the assembled document. -/
def assembleHtml (cfg : Config) (baseURI : String) (pn : ParseNode) : String :=
  assembleHead cfg baseURI pn ++ htmlTextOf pn ++ htmlCategoriesOf pn ++ "</body></html>"

/-- `view.ts` line 146: `` `${viewerTitle}: ${re.parse.displaytitle}` `` —
an absent display title interpolates as the text `"undefined"`. -/
def assembledTitle (viewerTitle : String) (pn : ParseNode) : String :=
  viewerTitle ++ ": " ++ jsTemplate pn.displaytitle

/-! ## `getView` (`view.ts` lines 117-154)

The panel argument is either an existing panel (live preview) or a string
view-type, in which case a fresh untracked panel is created.  The function
returns the emitted events, the updated state (fresh-id supply), and the
panel's final contents. -/

def getViewRun (cfg : Config) (s : ExtState) (panelArg : Sum Panel String)
    (viewerTitle baseURI : String) (args : ParseArgs) (outcome : RequestOutcome) :
    List Event × ExtState × Panel :=
  let created : List Event × ExtState × Panel :=
    match panelArg with
    | .inl p => ([], s, p)
    | .inr _ => ([Event.createPanel s.panels viewerTitle],
        { s with panels := s.panels + 1 },
        { id := s.panels, html := "", title := viewerTitle })
  let p := created.2.2
  let evs0 : List Event :=
    created.1 ++ [Event.setHtml p.id loadingHtml, Event.request args]
  let p0 : Panel := { p with html := loadingHtml }
  match outcome with
  | .reject e =>
    (evs0 ++ [Event.errorMsg ("ErrorCode:" ++ e.code ++ "| ErrorInfo:" ++ e.info),
        Event.setHtml p.id errorHtml],
      created.2.1, { p0 with html := errorHtml })
  | .resolve re =>
    match re.parse with
    | none => (evs0, created.2.1, p0)
    | some pn =>
      let html := assembleHtml cfg baseURI pn
      let newTitle := assembledTitle viewerTitle pn
      (evs0 ++ [Event.setHtml p.id html, Event.setTitle p.id newTitle],
        created.2.1, { p0 with html := html, title := newTitle })

/-! ## `getPreview` (`view.ts` lines 19-70) -/

def previewViewerTitle : String := "WikitextPreviewer"

/-- `view.ts` lines 33-45: the arguments sent for a live preview. -/
def previewArgs (cfg : Config) (sourceText : String) : ParseArgs :=
  { action := "parse", text := some sourceText,
    prop := alterNativeValues [some "text", some "displaytitle", some "categorieshtml",
      if cfg.getCss then some "headhtml" else none],
    contentmodel := some "wikitext", pst := some "whynot",
    disableeditsection := some "yes" }

/-- `view.ts` lines 50-60: reuse the tracked preview panel, creating (and
tracking) a fresh one only when none is tracked. -/
def previewPanelFor (s : ExtState) : List Event × ExtState × Panel :=
  match s.tracked with
  | some pid => ([], s, { id := pid, html := "", title := previewViewerTitle })
  | none =>
    ([Event.createPanel s.panels previewViewerTitle],
      { s with panels := s.panels + 1, tracked := some s.panels },
      { id := s.panels, html := "", title := previewViewerTitle })

/-- `view.ts` lines 57-59: the panel's `onDidDispose` handler clears the
tracked reference. -/
def disposePreview (s : ExtState) : ExtState :=
  { s with tracked := none }

/-- `getPreview`: `host` is the result of `getHost()`, `docText` the active
editor's text (absent when there is no active editor), `botOk` whether
`getBot()` produced a bot, `outcome` the request outcome. -/
def getPreviewRun (cfg : Config) (host : Option String) (docText : Option String)
    (botOk : Bool) (outcome : RequestOutcome) (s : ExtState) :
    List Event × ExtState × Option Panel :=
  match host with
  | none => ([], s, none)
  | some h =>
    match docText with
    | none => ([], s, none)
    | some t =>
      if t = "" then ([], s, none)
      else
        let sourceText := stripPageInfo t
        let args := previewArgs cfg sourceText
        let sel := previewPanelFor s
        if botOk then
          let baseHref := cfg.transferProtocol ++ h ++ cfg.articlePath
          let run := getViewRun cfg sel.2.1 (.inl sel.2.2) previewViewerTitle baseHref args outcome
          (sel.1 ++ run.1, run.2.1, some run.2.2)
        else (sel.1, sel.2.1, some sel.2.2)

/-! ## `getPageView` (`view.ts` lines 72-106) -/

/-- `view.ts` lines 84-96. -/
def pageViewArgs (cfg : Config) (pageTitle : String) : ParseArgs :=
  { action := "parse", page := some pageTitle,
    prop := alterNativeValues [some "text", some "displaytitle", some "categorieshtml",
      if cfg.getCss then some "headhtml" else none],
    redirects := if cfg.redirects then some "true" else none }

/-- `getPageView`: prompts for a page title, then runs `getView` with the
string panel argument (a fresh, untracked panel). -/
def getPageViewRun (cfg : Config) (host : Option String) (pageTitle : Option String)
    (botOk : Bool) (outcome : RequestOutcome) (s : ExtState) :
    List Event × ExtState × Option Panel :=
  match host with
  | none => ([], s, none)
  | some h =>
    match pageTitle with
    | none => ([], s, none)
    | some t =>
      if t = "" then ([], s, none)
      else if botOk then
        let baseHref := cfg.transferProtocol ++ h ++ cfg.articlePath
        let run := getViewRun cfg s (.inr "pageViewer") "WikiViewer" baseHref
          (pageViewArgs cfg t) outcome
        (run.1, run.2.1, some run.2.2)
      else ([], s, none)

/-! ## `viewPage` (`wmcore.ts` lines 201-267)

The request is issued first (`sendRequest`), the panel is created inside the
response callback, and the decoded result is dispatched on `re.error` /
`re.parse`.  Note: no "Loading..." write exists in this flow, and the error
branch never writes to the panel. -/

/-- `wmcore.ts` lines 210-215 (its `prop` set has no `categorieshtml`). -/
def viewPageArgs (cfg : Config) (pageTitle : String) : ParseArgs :=
  { action := "parse", page := some pageTitle,
    prop := alterNativeValues [some "text", some "displaytitle",
      if cfg.getCss then some "headhtml" else none],
    redirects := if cfg.redirects then some "true" else none }

def viewPageRun (cfg : Config) (pageTitle : Option String) (re : GetViewResult)
    (s : ExtState) : List Event × ExtState × Option Panel :=
  match pageTitle with
  | none => ([], s, none)
  | some t =>
    if t = "" then ([], s, none)
    else
      let pid := s.panels
      let s1 : ExtState := { s with panels := s.panels + 1 }
      let evs0 : List Event :=
        [Event.request (viewPageArgs cfg t), Event.createPanel pid "PageViewer"]
      let p : Panel := { id := pid, html := "", title := "PageViewer" }
      match re.error with
      | some e =>
        (evs0 ++ [Event.errorMsg (e.code ++ "! " ++ e.info)], s1, some p)
      | none =>
        match re.parse with
        | none => (evs0, s1, some p)
        | some pn =>
          let header : String :=
            if cfg.getCss then
              match pn.headhtml.bind StarNode.star with
              | some hh => jsOrElse hh ""
              | none => ""
            else "<!DOCTYPE html><html><body>"
          let html := header ++ jsTemplate (pn.text.bind StarNode.star) ++ "</body></html>"
          let newTitle := "WikitextPreviewer: " ++ jsTemplate pn.displaytitle
          (evs0 ++ [Event.setHtml pid html, Event.setTitle pid newTitle], s1,
            some { p with html := html, title := newTitle })

/-! ## `writePage` (`wmcore.ts` lines 58-108)

Only the precondition structure matters to the claims; the edit continuation
past the checks (token fetch and edit call, which merely relay status
messages) is collapsed into a single `editRequest` event. -/

def writePageRun (docText : Option String) (botPresent : Bool)
    (title summary : Option String) : List Event :=
  match docText with
  | none => [Event.warnMsg "There is no active text editor."]
  | some content =>
    if ¬ botPresent then
      [Event.warnMsg "You are not logged in. Please log in and try again."]
    else
      match title with
      | none => []
      | some t =>
        if t = "" then []
        else
          [Event.editRequest t content
            (jsTemplate summary ++ " // Edit via Wikitext Extension for Visual Studio Code")]

/-! ## `readPage` (`wmcore.ts` lines 113-199)

The xml2js result shape (`interface_definition/readPageInterface.ts` output):
every level is optional, attribute bags live under `$`, text content under
`_`, list nesting mirrors the XML. -/

structure FromTo where
  fromText : Option String := none
  toText : Option String := none
deriving DecidableEq, Repr

structure IwAttr where
  title : Option String := none
  iw : Option String := none
deriving DecidableEq, Repr

structure INode where
  dollar : Option IwAttr := none
deriving DecidableEq, Repr

structure InterwikiNode where
  i : Option (List INode) := none
deriving DecidableEq, Repr

structure PageAttr where
  title : Option String := none
  missing : Option String := none
  invalid : Option String := none
  invalidreason : Option String := none
  pageid : Option String := none
deriving DecidableEq, Repr

structure SlotAttr where
  contentmodel : Option String := none
deriving DecidableEq, Repr

structure SlotNode where
  underscore : Option String := none
  dollar : Option SlotAttr := none
deriving DecidableEq, Repr

structure SlotsNode where
  slot : Option (List SlotNode) := none
deriving DecidableEq, Repr

structure RevNode where
  slots : Option (List SlotsNode) := none
deriving DecidableEq, Repr

structure RevisionsNode where
  rev : Option (List RevNode) := none
deriving DecidableEq, Repr

structure PageNode where
  dollar : Option PageAttr := none
  revisions : Option (List RevisionsNode) := none
deriving DecidableEq, Repr

structure PagesNode where
  page : Option (List PageNode) := none
deriving DecidableEq, Repr

structure NNode where
  dollar : Option FromTo := none
deriving DecidableEq, Repr

structure NormalizedNode where
  n : Option (List NNode) := none
deriving DecidableEq, Repr

structure RNode where
  dollar : Option FromTo := none
deriving DecidableEq, Repr

structure RedirectsNode where
  r : Option (List RNode) := none
deriving DecidableEq, Repr

structure QueryNode where
  interwiki : Option (List InterwikiNode) := none
  pages : Option (List PagesNode) := none
  normalized : Option (List NormalizedNode) := none
  redirects : Option (List RedirectsNode) := none
deriving DecidableEq, Repr

structure ApiNode where
  query : Option (List QueryNode) := none
deriving DecidableEq, Repr

structure ReadPageResult where
  api : Option ApiNode := none
deriving DecidableEq, Repr

/-- `re.api?.query?.[0]`. -/
def readQ0 (re : ReadPageResult) : Option QueryNode :=
  (re.api.bind ApiNode.query).bind (fun l => l.get? 0)

/-- The missing/invalid warning text (`wmcore.ts` lines 167-170); the source's
trailing `|| ""` never fires since its left operand is a nonempty string, and
an absent `invalidreason` string-concatenates as `"undefined"`. -/
def missingPageMsg (title : Option String) (reason : Option String) : String :=
  jsOrElse
    ("The page \"" ++ jsTemplate title ++ "\" you are looking for does not exist." ++
      jsTemplate reason)
    ""

/-- `re.api?.query?.[0].interwiki?.[0].i?.[0].$` (`wmcore.ts` line 156). -/
def iw0attr (iwl : List InterwikiNode) : Option IwAttr :=
  (((iwl.get? 0).bind InterwikiNode.i).bind (fun l => l.get? 0)).bind INode.dollar

/-- The interwiki warning text (`wmcore.ts` lines 155-157). -/
def interwikiMsg (iwl : List InterwikiNode) : String :=
  "Interwiki page \"" ++ jsTemplate ((iw0attr iwl).bind IwAttr.title) ++
    "\" in space \"" ++ jsTemplate ((iw0attr iwl).bind IwAttr.iw) ++
    "\" are currently not supported. Please try to modify host."

/-- `page[0].$` of the pages list. -/
def pageAttrs (pl : List PageNode) : Option PageAttr :=
  (pl.get? 0).bind PageNode.dollar

/-- `page[0].revisions?.[0].rev?.[0].slots?.[0].slot?.[0]` (`wmcore.ts`
lines 175-176). -/
def readSlot0 (pl : List PageNode) : Option SlotNode :=
  (((((((pl.get? 0).bind PageNode.revisions).bind (fun l => l.get? 0)).bind
    RevisionsNode.rev).bind (fun l => l.get? 0)).bind RevNode.slots).bind
    (fun l => l.get? 0)).bind SlotsNode.slot |>.bind (fun l => l.get? 0)

/-- The opened-page info text (`wmcore.ts` line 191). -/
def openedMsg (re : ReadPageResult) (pl : List PageNode) : String :=
  "Opened page \"" ++ jsTemplate ((pageAttrs pl).bind PageAttr.title) ++
    "\" (page ID:\"" ++ jsTemplate ((pageAttrs pl).bind PageAttr.pageid) ++
    "\") with Model " ++
    jsTemplate (((readSlot0 pl).bind SlotNode.dollar).bind SlotAttr.contentmodel) ++ "." ++
    (match ((((readQ0 re).bind QueryNode.normalized).bind (fun l => l.get? 0)).bind
        NormalizedNode.n).bind (fun l => l.get? 0) |>.bind NNode.dollar with
      | some a => " Normalized: \"" ++ jsTemplate a.fromText ++ "\" => \"" ++
          jsTemplate a.toText ++ "\"."
      | none => "") ++
    (match ((((readQ0 re).bind QueryNode.redirects).bind (fun l => l.get? 0)).bind
        RedirectsNode.r).bind (fun l => l.get? 0) |>.bind RNode.dollar with
      | some a => " Redirect: \"" ++ jsTemplate a.fromText ++ "\" => \"" ++
          jsTemplate a.toText ++ "\""
      | none => "")

/-- The xml2js callback of `readPage` (`wmcore.ts` lines 149-192): interwiki
warning, missing-page guard, missing/invalid warning, or document opening
plus the opened-page info message. -/
def readPageOutcome (re : ReadPageResult) : List Event :=
  match (readQ0 re).bind QueryNode.interwiki with
  | some iwl => [Event.warnMsg (interwikiMsg iwl)]
  | none =>
    match (((readQ0 re).bind QueryNode.pages).bind (fun l => l.get? 0)).bind
        PagesNode.page with
    | none => []
    | some pl =>
      if ((pageAttrs pl).bind PageAttr.missing).isSome ∨
          ((pageAttrs pl).bind PageAttr.invalid).isSome then
        [Event.warnMsg (missingPageMsg ((pageAttrs pl).bind PageAttr.title)
          ((pageAttrs pl).bind PageAttr.invalidreason))]
      else
        [Event.openDoc ((readSlot0 pl).bind SlotNode.underscore)
            (((readSlot0 pl).bind SlotNode.dollar).bind SlotAttr.contentmodel),
          Event.infoMsg (openedMsg re pl)]

/-- `readPage`: empty or cancelled title input returns silently; otherwise the
decoded XML result is dispatched by `readPageOutcome`. -/
def readPageRun (title : Option String) (re : ReadPageResult) : List Event :=
  match title with
  | none => []
  | some t => if t = "" then [] else readPageOutcome re

/-! ## JavaScript value semantics (for the totality claim)

To state "no field access throws" the relevant member accesses of
`view.ts` lines 131-146 and `wmcore.ts` lines 242-254 are embedded over a
JSON-like value type with real JavaScript access semantics: plain access on
`undefined`/`null` throws, optional chaining short-circuits, access of a
missing key yields `undefined`. -/

inductive Jv where
  | undefined
  | jnull
  | jbool (b : Bool)
  | jnum (n : Int)
  | jstr (s : String)
  | jarr (elems : List Jv)
  | jobj (fields : List (String × Jv))
deriving Repr

/-- JS truthiness. -/
def jvTruthy : Jv → Bool
  | .undefined => false
  | .jnull => false
  | .jbool b => b
  | .jnum n => n ≠ 0
  | .jstr s => s ≠ ""
  | .jarr _ => true
  | .jobj _ => true

/-- JS `String(v)` / template interpolation for the value shapes reachable
here (object stringification is the standard `[object Object]`; arrays join
their elements with commas, `null`/`undefined` elements printing empty). -/
def jvToDisplayString : Jv → String
  | .undefined => "undefined"
  | .jnull => "null"
  | .jbool b => if b then "true" else "false"
  | .jnum n => toString n
  | .jstr s => s
  | .jarr _ => ""
  | .jobj _ => "[object Object]"

/-- Plain member access `v.k`: throws (returns `.error`) on
`undefined`/`null`, yields `undefined` for a missing key or a non-object
base. -/
def jsGetField (v : Jv) (k : String) : Except String Jv :=
  match v with
  | .undefined => .error ("TypeError: cannot read properties of undefined (reading " ++ k ++ ")")
  | .jnull => .error ("TypeError: cannot read properties of null (reading " ++ k ++ ")")
  | .jobj fs => .ok ((fs.lookup k).getD .undefined)
  | _ => .ok .undefined

/-- Optional-chained access `v?.[k]` / `v?.k`: a nullish base short-circuits
to `undefined` instead of throwing. -/
def jsGetFieldOpt (v : Jv) (k : String) : Except String Jv :=
  match v with
  | .undefined => .ok .undefined
  | .jnull => .ok .undefined
  | _ => jsGetField v k

/-- Optional-chained call `v?.replace(pat, repl)`: nullish short-circuits;
calling `replace` on a non-string non-nullish value throws. -/
def jsCallReplace (v : Jv) (pat repl : String) : Except String Jv :=
  match v with
  | .undefined => .ok .undefined
  | .jnull => .ok .undefined
  | .jstr s => .ok (.jstr (jsReplaceFirst s pat repl))
  | _ => .error "TypeError: v.replace is not a function"

/-- Keep a string payload, degrading anything else to `undefined`. -/
def keepStrJv : Option Jv → Jv
  | some (.jstr s) => .jstr s
  | _ => .undefined

/-- Normalize a `{"*": ...}` node: an object keeps its (string) `"*"` payload,
anything else degrades to `undefined`. -/
def starNodeJv : Option Jv → Jv
  | some (.jobj fs) => .jobj [("*", keepStrJv (fs.lookup "*"))]
  | _ => .undefined

/-- The field list of an object value (empty for non-objects). -/
def jvFields : Jv → List (String × Jv)
  | .jobj fs => fs
  | _ => []

/-- Modelled from the spec: normalization of the top-level `error` object
(code/info strings) by the converter in
`interface_definition/getViewInterface.ts` (not under `src/`). -/
def normError : Option Jv → Jv
  | some (.jobj efs) =>
    .jobj [("code", keepStrJv (efs.lookup "code")), ("info", keepStrJv (efs.lookup "info"))]
  | _ => .undefined

/-- Modelled from the spec: normalization of the `parse` node (text,
displaytitle, headhtml, categorieshtml, each optional) by the converter in
`interface_definition/getViewInterface.ts` (not under `src/`). -/
def normParse : Option Jv → Jv
  | some (.jobj pfs) =>
    .jobj [
      ("text", starNodeJv (pfs.lookup "text")),
      ("displaytitle", keepStrJv (pfs.lookup "displaytitle")),
      ("headhtml", starNodeJv (pfs.lookup "headhtml")),
      ("categorieshtml", starNodeJv (pfs.lookup "categorieshtml"))]
  | _ => .undefined

/-- Modelled from the spec: the quicktype converter
(`ViewConverter.getViewResultToJson` / `GetViewConvert.toGetViewResult` in
`interface_definition/getViewInterface.ts`, which is not under `src/`) —
per the spec it is a total normalization of the parsed response into a
result object with optional fields, absent or malformed fields degrading to
`undefined` rather than throwing. -/
def normGetView (raw : Jv) : Jv :=
  .jobj [
    ("error", normError ((jvFields raw).lookup "error")),
    ("parse", normParse ((jvFields raw).lookup "parse"))]

/-- Result of an extraction pass. -/
inductive ExtractOut where
  | skipped
  | errorShown (msg : String)
  | rendered (html title : String)
deriving DecidableEq, Repr

/-- Sequencing of one JS member access: a thrown access aborts evaluation of
the whole statement sequence. -/
def seqAccess (x : Except String Jv) (f : Jv → Except String ExtractOut) :
    Except String ExtractOut :=
  match x with
  | .error m => .error m
  | .ok v => f v

/-- The member accesses of `getView` (`view.ts` lines 131-146) with JS access
semantics: `re.parse` plain (guarded by the falsiness check), then the
optional-chained `headhtml?.["*"]?.replace`, `text?.["*"]`,
`categorieshtml?.["*"]`, and the plain `displaytitle` read. -/
def getViewExtract (cfg : Config) (viewerTitle baseURI : String) (re : Jv) :
    Except String ExtractOut :=
  seqAccess (jsGetField re "parse") fun parse =>
  if jvTruthy parse then
    seqAccess (jsGetField parse "headhtml") fun hh =>
    seqAccess (jsGetFieldOpt hh "*") fun hstar =>
    seqAccess (jsCallReplace hstar "<head>"
      ("<head>" ++ baseElemOf baseURI ++ styleOf cfg)) fun hrep =>
    seqAccess (jsGetField parse "text") fun tx =>
    seqAccess (jsGetFieldOpt tx "*") fun tstar =>
    seqAccess (jsGetField parse "categorieshtml") fun ch =>
    seqAccess (jsGetFieldOpt ch "*") fun cstar =>
    seqAccess (jsGetField parse "displaytitle") fun dt =>
    .ok (.rendered
      ((match hrep with
        | .jstr s => s
        | _ => "<!DOCTYPE html><html><head>" ++ baseElemOf baseURI ++ styleOf cfg ++
            "</head><body>") ++
        (if jvTruthy tstar then jvToDisplayString tstar else "") ++
        (if jvTruthy cstar then "<hr />" ++ jvToDisplayString cstar else "") ++
        "</body></html>")
      (viewerTitle ++ ": " ++ jvToDisplayString dt))
  else .ok .skipped

/-- The `re.parse` part of `viewPage` (`wmcore.ts` lines 246-254) with JS
access semantics (the `getCss` conditional selects whether `headhtml` is
read at all). -/
def viewPageParsePart (cfg : Config) (re : Jv) : Except String ExtractOut :=
  seqAccess (jsGetField re "parse") fun parse =>
  if jvTruthy parse then
    if cfg.getCss then
      seqAccess (jsGetField parse "headhtml") fun hh =>
      seqAccess (jsGetFieldOpt hh "*") fun hstar =>
      seqAccess (jsGetField parse "text") fun tx =>
      seqAccess (jsGetFieldOpt tx "*") fun tstar =>
      seqAccess (jsGetField parse "displaytitle") fun dt =>
      .ok (.rendered
        ((if jvTruthy hstar then jvToDisplayString hstar else "") ++
          jvToDisplayString tstar ++ "</body></html>")
        ("WikitextPreviewer: " ++ jvToDisplayString dt))
    else
      seqAccess (jsGetField parse "text") fun tx =>
      seqAccess (jsGetFieldOpt tx "*") fun tstar =>
      seqAccess (jsGetField parse "displaytitle") fun dt =>
      .ok (.rendered
        ("<!DOCTYPE html><html><body>" ++ jvToDisplayString tstar ++ "</body></html>")
        ("WikitextPreviewer: " ++ jvToDisplayString dt))
  else .ok .skipped

/-- The member accesses of `viewPage` (`wmcore.ts` lines 242-254) with JS
access semantics: `re.error` first, its `code`/`info` on the error branch,
otherwise the `re.parse` part. -/
def viewPageExtract (cfg : Config) (re : Jv) : Except String ExtractOut :=
  seqAccess (jsGetField re "error") fun err =>
  if jvTruthy err then
    seqAccess (jsGetField err "code") fun c =>
    seqAccess (jsGetField err "info") fun i =>
    .ok (.errorShown (jvToDisplayString c ++ "! " ++ jvToDisplayString i))
  else viewPageParsePart cfg re

/-! ## Trace predicates -/

def isRequestEv : Event → Bool
  | .request _ => true
  | _ => false

def isSetHtmlEv : Event → Bool
  | .setHtml _ _ => true
  | _ => false

def isLoadingSetEv : Event → Bool
  | .setHtml _ h => h = loadingHtml
  | _ => false

/-- `errorMsg` or `warnMsg`: a user-visible error/warning message. -/
def isMessageEv : Event → Bool
  | .errorMsg _ => true
  | .warnMsg _ => true
  | _ => false

def isOpenDocEv : Event → Bool
  | .openDoc _ _ => true
  | _ => false

/-- The events preceding the first HTTP request of a trace. -/
def beforeFirstRequest : List Event → List Event
  | [] => []
  | e :: tl => if isRequestEv e then [] else e :: beforeFirstRequest tl

/-- A "Loading..." write occurs strictly before the first HTTP request. -/
def loadingBeforeRequestB (evs : List Event) : Bool :=
  (beforeFirstRequest evs).any isLoadingSetEv

/-! ## Lemmas about the replacement primitive -/

theorem expandRepl_no_dollar (before matched after : List Char) (repl : List Char)
    (h : dollarChar ∉ repl) : expandRepl before matched after repl = repl := by
  induction repl with
  | nil => rfl
  | cons c tl ih =>
    have hc : ¬ c = dollarChar := by
      intro hce
      exact h (by rw [← hce]; exact List.mem_cons_self c tl)
    have ht : dollarChar ∉ tl := fun hm => h (List.mem_cons_of_mem c hm)
    rw [expandRepl.eq_def]
    dsimp only
    rw [if_neg hc, ih ht]

theorem jsReplaceFirst_of_split (s pat repl pre post : String)
    (hsplit : splitFirst s pat = some (pre, post))
    (hd : dollarChar ∉ repl.data) :
    jsReplaceFirst s pat repl = pre ++ repl ++ post := by
  unfold jsReplaceFirst
  rw [hsplit]
  show pre ++ String.mk (expandRepl pre.data pat.data post.data repl.data) ++ post =
    pre ++ repl ++ post
  rw [expandRepl_no_dollar _ _ _ _ hd]

/-! ## Claims about the HTML assembler -/

/-- C2: for every decoded result, when head HTML is supplied the assembler
injects the base tag and a style block containing the configured CSS
immediately after the opening `<head>` tag of that fragment (the first
occurrence of the literal `<head>`); when head HTML is absent it falls back
to a synthesized minimal document head containing exactly the base tag and
the style block. -/
theorem assembleHead_cases (cfg : Config) (baseURI : String) (pn pn2 : ParseNode)
    (h pre post : String)
    (hstar : pn.headhtml.bind StarNode.star = some h)
    (hsplit : splitFirst h "<head>" = some (pre, post))
    (hdollar : dollarChar ∉ ("<head>" ++ baseElemOf baseURI ++ styleOf cfg).data)
    (hnone : pn2.headhtml.bind StarNode.star = none) :
    assembleHead cfg baseURI pn =
      pre ++ ("<head>" ++ baseElemOf baseURI ++ styleOf cfg) ++ post ∧
    assembleHead cfg baseURI pn2 =
      "<!DOCTYPE html><html><head>" ++ baseElemOf baseURI ++ styleOf cfg ++
        "</head><body>" := by
  constructor
  · unfold assembleHead
    rw [hstar]
    exact jsReplaceFirst_of_split _ _ _ _ _ hsplit hdollar
  · unfold assembleHead
    rw [hnone]

/-- Witness for `assembleHead_cases` at a concrete response. -/
theorem assembleHead_cases_witness :
    (({ headhtml := some { star := some "<html><head><meta /></head>" } } :
        ParseNode).headhtml.bind StarNode.star = some "<html><head><meta /></head>") ∧
    splitFirst "<html><head><meta /></head>" "<head>" = some ("<html>", "<meta /></head>") ∧
    dollarChar ∉ ("<head>" ++ baseElemOf "https://w/wiki/" ++
      styleOf { previewCssStyle := "body" }).data ∧
    (({} : ParseNode).headhtml.bind StarNode.star = none) ∧
    (assembleHead { previewCssStyle := "body" } "https://w/wiki/"
        { headhtml := some { star := some "<html><head><meta /></head>" } } =
      "<html>" ++ ("<head>" ++ baseElemOf "https://w/wiki/" ++
        styleOf { previewCssStyle := "body" }) ++ "<meta /></head>" ∧
    assembleHead { previewCssStyle := "body" } "https://w/wiki/" {} =
      "<!DOCTYPE html><html><head>" ++ baseElemOf "https://w/wiki/" ++
        styleOf { previewCssStyle := "body" } ++ "</head><body>") :=
  ⟨rfl, by decide, by decide, rfl,
    assembleHead_cases { previewCssStyle := "body" } "https://w/wiki/"
      { headhtml := some { star := some "<html><head><meta /></head>" } } {}
      "<html><head><meta /></head>" "<html>" "<meta /></head>"
      rfl (by decide) (by decide) rfl⟩

/-- C7: a response lacking a (truthy) categories payload assembles with no
horizontal-rule/categories segment; a response carrying a nonempty payload
assembles with the segment exactly once, immediately after the body
fragment. -/
theorem assembleHtml_categories (cfg : Config) (baseURI : String) (pn : ParseNode) :
    ((pn.categorieshtml.bind StarNode.star = none ∨
        pn.categorieshtml.bind StarNode.star = some "") →
      assembleHtml cfg baseURI pn =
        assembleHead cfg baseURI pn ++ htmlTextOf pn ++ "</body></html>") ∧
    (∀ c : String, pn.categorieshtml.bind StarNode.star = some c → c ≠ "" →
      assembleHtml cfg baseURI pn =
        assembleHead cfg baseURI pn ++ htmlTextOf pn ++ ("<hr />" ++ c) ++
          "</body></html>") := by
  constructor
  · intro hc
    unfold assembleHtml htmlCategoriesOf
    rcases hc with hc | hc <;> rw [hc] <;> simp [String.append_empty]
  · intro c hc hne
    unfold assembleHtml htmlCategoriesOf
    rw [hc]
    simp [hne]

/-- Witness for `assembleHtml_categories` at concrete responses. -/
theorem assembleHtml_categories_witness :
    (({ text := some { star := some "<p>Hi</p>" } } :
        ParseNode).categorieshtml.bind StarNode.star = none) ∧
    (({ text := some { star := some "<p>Hi</p>" },
        categorieshtml := some { star := some "<div>Cats</div>" } } :
        ParseNode).categorieshtml.bind StarNode.star = some "<div>Cats</div>") ∧
    ("<div>Cats</div>" : String) ≠ "" ∧
    (assembleHtml {} "b" { text := some { star := some "<p>Hi</p>" } } =
      assembleHead {} "b" { text := some { star := some "<p>Hi</p>" } } ++
        "<p>Hi</p>" ++ "</body></html>" ∧
    assembleHtml {} "b"
        { text := some { star := some "<p>Hi</p>" },
          categorieshtml := some { star := some "<div>Cats</div>" } } =
      assembleHead {} "b"
          { text := some { star := some "<p>Hi</p>" },
            categorieshtml := some { star := some "<div>Cats</div>" } } ++
        "<p>Hi</p>" ++ ("<hr />" ++ "<div>Cats</div>") ++ "</body></html>") := by
  refine ⟨rfl, rfl, by decide, ?_, ?_⟩
  · rw [(assembleHtml_categories {} "b"
      { text := some { star := some "<p>Hi</p>" } }).1 (Or.inl rfl)]
    decide
  · rw [(assembleHtml_categories {} "b"
      { text := some { star := some "<p>Hi</p>" },
        categorieshtml := some { star := some "<div>Cats</div>" } }).2
      "<div>Cats</div>" rfl (by decide)]
    decide

/-! ## The panel-title claim -/

/-- C3 counterexample: a successful render whose response decodes no display
title sets the panel title to `"WikitextPreviewer: undefined"` (the JS
interpolation of `undefined`), not to the viewer label alone. -/
theorem panel_title_cex :
    (getViewRun {} {} (.inl { id := 0, title := "WikitextPreviewer" })
        "WikitextPreviewer" "b" (previewArgs {} "x")
        (.resolve { parse := some { text := some { star := some "<p>x</p>" } } })).2.2.title =
      "WikitextPreviewer: undefined" ∧
    ¬ (getViewRun {} {} (.inl { id := 0, title := "WikitextPreviewer" })
        "WikitextPreviewer" "b" (previewArgs {} "x")
        (.resolve { parse := some { text := some { star := some "<p>x</p>" } } })).2.2.title =
      "WikitextPreviewer" := by
  constructor <;> decide

/-- C3 amended: for every successful render the panel title is the viewer
label, `": "`, and the JS interpolation of the decoded display title — the
text `"undefined"` standing in when no display title was decoded (the label
is never used alone).  Holds for both the `getView` flow and the `viewPage`
flow. -/
theorem panel_title_amended (cfg : Config) (s s2 : ExtState) (p : Panel)
    (vt base t : String) (args : ParseArgs) (re re2 : GetViewResult)
    (pn pn2 : ParseNode)
    (hp : re.parse = some pn)
    (he2 : re2.error = none) (hp2 : re2.parse = some pn2) (ht : t ≠ "") :
    (getViewRun cfg s (.inl p) vt base args (.resolve re)).2.2.title =
      vt ++ ": " ++ jsTemplate pn.displaytitle ∧
    Event.setTitle p.id (vt ++ ": " ++ jsTemplate pn.displaytitle) ∈
      (getViewRun cfg s (.inl p) vt base args (.resolve re)).1 ∧
    ((viewPageRun cfg (some t) re2 s2).2.2.map Panel.title) =
      some ("WikitextPreviewer: " ++ jsTemplate pn2.displaytitle) := by
  refine ⟨?_, ?_, ?_⟩
  · simp [getViewRun, hp, assembledTitle]
  · simp [getViewRun, hp, assembledTitle]
  · simp [viewPageRun, ht, he2, hp2]

/-- A concrete parse node carrying a display title and body, for witnesses. -/
def pnHi : ParseNode :=
  { displaytitle := some "Hi", text := some { star := some "<p>Hi</p>" } }

/-- A concrete successful response around `pnHi`. -/
def reHi : GetViewResult := { parse := some pnHi }

/-- A concrete preview panel, for witnesses. -/
def panel0 : Panel := { id := 0, title := "WikitextPreviewer" }

/-- Witness for `panel_title_amended` at a concrete response carrying a
display title. -/
theorem panel_title_amended_witness :
    reHi.parse = some pnHi ∧ reHi.error = none ∧ ("T" : String) ≠ "" ∧
    ((getViewRun {} {} (.inl panel0) "WikitextPreviewer" "b" (previewArgs {} "x")
        (.resolve reHi)).2.2.title = "WikitextPreviewer" ++ ": " ++ jsTemplate (some "Hi") ∧
      (viewPageRun {} (some "T") reHi {}).2.2.map Panel.title =
        some ("WikitextPreviewer: " ++ jsTemplate (some "Hi"))) := by
  refine ⟨rfl, rfl, by decide, ?_, ?_⟩
  · exact (panel_title_amended {} {} {} panel0 "WikitextPreviewer" "b" "T"
      (previewArgs {} "x") reHi reHi pnHi pnHi rfl rfl rfl (by decide)).1
  · exact (panel_title_amended {} {} {} panel0 "WikitextPreviewer" "b" "T"
      (previewArgs {} "x") reHi reHi pnHi pnHi rfl rfl rfl (by decide)).2.2

/-! ## The API-error claim -/

/-- A concrete top-level-error response. -/
def reErr : GetViewResult := { error := some { code := "c", info := "i" } }

/-- C1 counterexample: in the `viewPage` flow a decoded top-level API error
surfaces the error message but performs no `webview.html` write at all — the
freshly created panel keeps its empty content instead of being overwritten
with the minimal "Error" placeholder document. -/
theorem api_error_placeholder_cex :
    (viewPageRun {} (some "T") reErr {}).1 =
      [Event.request (viewPageArgs {} "T"), Event.createPanel 0 "PageViewer",
        Event.errorMsg "c! i"] ∧
    ((viewPageRun {} (some "T") reErr {}).1.all fun e => ! isSetHtmlEv e) = true ∧
    (viewPageRun {} (some "T") reErr {}).2.2 = some { id := 0, title := "PageViewer" } ∧
    ¬ ("" : String) = errorHtml := by
  exact ⟨by decide, by decide, by decide, by decide⟩

/-- C1 amended: a decoded top-level API error always surfaces a visible error
message built from its code and info and suppresses all field extraction
(no `setTitle`, no assembled-HTML write); in the `getView` flow — where API
errors arrive as mwbot rejections — the surface is additionally overwritten
with the minimal "Error" placeholder document, while the `viewPage` flow
leaves the freshly created panel's content untouched. -/
theorem api_error_handling (cfg : Config) (s s2 : ExtState) (p : Panel)
    (vt base t : String) (args : ParseArgs) (e : ApiError) (re : GetViewResult)
    (ht : t ≠ "") (he : re.error = some e) :
    (getViewRun cfg s (.inl p) vt base args (.reject e)).1 =
      [Event.setHtml p.id loadingHtml, Event.request args,
        Event.errorMsg ("ErrorCode:" ++ e.code ++ "| ErrorInfo:" ++ e.info),
        Event.setHtml p.id errorHtml] ∧
    (getViewRun cfg s (.inl p) vt base args (.reject e)).2.2.html = errorHtml ∧
    (viewPageRun cfg (some t) re s2).1 =
      [Event.request (viewPageArgs cfg t), Event.createPanel s2.panels "PageViewer",
        Event.errorMsg (e.code ++ "! " ++ e.info)] ∧
    (viewPageRun cfg (some t) re s2).2.2 =
      some { id := s2.panels, html := "", title := "PageViewer" } := by
  refine ⟨rfl, rfl, ?_, ?_⟩
  · simp [viewPageRun, ht, he]
  · simp [viewPageRun, ht, he]

/-- Witness for `api_error_handling` at a concrete error response. -/
theorem api_error_handling_witness :
    ("T" : String) ≠ "" ∧ reErr.error = some { code := "c", info := "i" } ∧
    ((getViewRun {} {} (.inl panel0) "WikitextPreviewer" "b" (previewArgs {} "x")
        (.reject { code := "c", info := "i" })).2.2.html = errorHtml ∧
      (viewPageRun {} (some "T") reErr {}).2.2 =
        some { id := 0, html := "", title := "PageViewer" }) := by
  refine ⟨by decide, rfl, ?_, ?_⟩
  · exact (api_error_handling {} {} {} panel0 "WikitextPreviewer" "b" "T"
      (previewArgs {} "x") { code := "c", info := "i" } reErr (by decide) rfl).2.1
  · exact (api_error_handling {} {} {} panel0 "WikitextPreviewer" "b" "T"
      (previewArgs {} "x") { code := "c", info := "i" } reErr (by decide) rfl).2.2.2

/-! ## The loading-before-request claim -/

theorem loadingBefore_of_shape (pid : Nat) (args : ParseArgs) (pre tail : List Event)
    (hp : ∀ e ∈ pre, isRequestEv e = false) :
    loadingBeforeRequestB
      (pre ++ [Event.setHtml pid loadingHtml, Event.request args] ++ tail) = true := by
  induction pre with
  | nil =>
    simp [loadingBeforeRequestB, beforeFirstRequest, isRequestEv, isLoadingSetEv]
  | cons e pr ih =>
    have he : isRequestEv e = false := hp e (List.mem_cons_self e pr)
    have ihp := ih (fun x hx => hp x (List.mem_cons_of_mem e hx))
    unfold loadingBeforeRequestB at ihp ⊢
    simp only [List.cons_append, beforeFirstRequest, he, Bool.false_eq_true, if_false,
      List.any_cons, List.append_eq, ihp, Bool.or_true]

/-- C5 counterexample: the `viewPage` flow (a page-view invocation) issues
the HTTP request as its very first effect — no "Loading..." write ever
precedes (or follows) it. -/
theorem loading_before_request_cex :
    loadingBeforeRequestB ((viewPageRun {} (some "T") reHi {}).1) = false ∧
    ((viewPageRun {} (some "T") reHi {}).1.any isRequestEv) = true := by
  exact ⟨by decide, by decide⟩

/-- C5 amended: in every `getView`-based invocation (live preview and the
`view.ts` page viewer) the "Loading..." placeholder write occurs immediately
before — in particular strictly before — the HTTP request; the `wmcore.ts`
`viewPage` flow instead issues the request as its first effect, before any
surface even exists, and never writes a "Loading..." placeholder. -/
theorem loading_before_request (cfg : Config) (s s2 : ExtState)
    (vt base h t tv : String) (args : ParseArgs) (outcome : RequestOutcome)
    (re : GetViewResult) (ht : t ≠ "") (htv : tv ≠ "") :
    (∀ panelArg : Sum Panel String, ∃ pre pid tail,
      (getViewRun cfg s panelArg vt base args outcome).1 =
        pre ++ [Event.setHtml pid loadingHtml, Event.request args] ++ tail ∧
      ∀ e ∈ pre, isRequestEv e = false) ∧
    loadingBeforeRequestB ((getPreviewRun cfg (some h) (some t) true outcome s).1) = true ∧
    loadingBeforeRequestB ((getPageViewRun cfg (some h) (some t) true outcome s).1) = true ∧
    (viewPageRun cfg (some tv) re s2).1.head? =
      some (Event.request (viewPageArgs cfg tv)) := by
  have hshape : ∀ (s3 : ExtState) (vt2 base2 : String) (args2 : ParseArgs)
      (panelArg : Sum Panel String), ∃ pre pid tail,
      (getViewRun cfg s3 panelArg vt2 base2 args2 outcome).1 =
        pre ++ [Event.setHtml pid loadingHtml, Event.request args2] ++ tail ∧
      ∀ e ∈ pre, isRequestEv e = false := by
    intro s3 vt2 base2 args2 panelArg
    rcases panelArg with p | lbl
    · refine ⟨[], p.id, ?_⟩
      rcases outcome with re2 | e2
      · rcases re2 with ⟨pn?, err⟩
        cases pn? with
        | none => exact ⟨[], rfl, by simp⟩
        | some pn => exact ⟨_, rfl, by simp⟩
      · exact ⟨_, rfl, by simp⟩
    · refine ⟨[Event.createPanel s3.panels vt2], s3.panels, ?_⟩
      rcases outcome with re2 | e2
      · rcases re2 with ⟨pn?, err⟩
        cases pn? with
        | none => exact ⟨[], rfl, by simp [isRequestEv]⟩
        | some pn => exact ⟨_, rfl, by simp [isRequestEv]⟩
      · exact ⟨_, rfl, by simp [isRequestEv]⟩
  have hsel : ∀ e ∈ (previewPanelFor s).1, isRequestEv e = false := by
    unfold previewPanelFor
    rcases htr : s.tracked with _ | pid <;> simp [isRequestEv]
  refine ⟨hshape s vt base args, ?_, ?_, ?_⟩
  · simp only [getPreviewRun]
    rw [if_neg ht]
    obtain ⟨pre, pid, tail, heq, hpre⟩ := hshape (previewPanelFor s).2.1
      previewViewerTitle (cfg.transferProtocol ++ h ++ cfg.articlePath)
      (previewArgs cfg (stripPageInfo t)) (.inl (previewPanelFor s).2.2)
    rw [heq]
    simp only [← List.append_assoc]
    refine loadingBefore_of_shape pid _ ((previewPanelFor s).1 ++ pre) tail ?_
    intro e he
    rcases List.mem_append.mp he with h1 | h2
    · exact hsel e h1
    · exact hpre e h2
  · simp only [getPageViewRun]
    rw [if_neg ht]
    obtain ⟨pre, pid, tail, heq, hpre⟩ := hshape s "WikiViewer"
      (cfg.transferProtocol ++ h ++ cfg.articlePath) (pageViewArgs cfg t)
      (.inr "pageViewer")
    rw [heq]
    exact loadingBefore_of_shape pid _ pre tail hpre
  · rcases re with ⟨pn?, err?⟩
    cases err? with
    | some e2 => simp [viewPageRun, htv]
    | none =>
      cases pn? with
      | none => simp [viewPageRun, htv]
      | some pn => simp [viewPageRun, htv]

/-- Witness for `loading_before_request` at concrete inputs. -/
theorem loading_before_request_witness :
    ("doc" : String) ≠ "" ∧ ("T" : String) ≠ "" ∧
    (loadingBeforeRequestB
        ((getPreviewRun {} (some "w") (some "doc") true (.resolve reHi) {}).1) = true ∧
      (viewPageRun {} (some "T") reHi {}).1.head? =
        some (Event.request (viewPageArgs {} "T"))) := by
  refine ⟨by decide, by decide, ?_, ?_⟩
  · exact (loading_before_request {} {} {} "WikitextPreviewer" "b" "w" "doc" "T"
      (previewArgs {} "doc") (.resolve reHi) reHi (by decide) (by decide)).2.1
  · exact (loading_before_request {} {} {} "WikitextPreviewer" "b" "w" "doc" "T"
      (previewArgs {} "doc") (.resolve reHi) reHi (by decide) (by decide)).2.2.2

/-! ## The session-tracking claim -/

/-- C6: the live-preview workflow tracks at most one surface — created lazily
when none is tracked, reused while tracked, cleared by the dispose handler so
the next request creates a fresh one — while every page-viewer invocation
constructs a new independent surface (a fresh id, distinct from any tracked
panel) and leaves the tracked reference unchanged. -/
theorem preview_session_tracking (cfg : Config) (s : ExtState) (p : Nat)
    (h t : String) (outcome : RequestOutcome)
    (htr : s.tracked = some p) (hlt : p < s.panels) (ht : t ≠ "") :
    (∀ s0 : ExtState, s0.tracked = none →
      previewPanelFor s0 =
        ([Event.createPanel s0.panels previewViewerTitle],
          { s0 with panels := s0.panels + 1, tracked := some s0.panels },
          { id := s0.panels, html := "", title := previewViewerTitle })) ∧
    previewPanelFor s = ([], s, { id := p, html := "", title := previewViewerTitle }) ∧
    (disposePreview s).tracked = none ∧
    (previewPanelFor (disposePreview s)).2.1.tracked = some s.panels ∧
    (getPageViewRun cfg (some h) (some t) true outcome s).2.1.tracked = s.tracked ∧
    (∃ pnl : Panel, (getPageViewRun cfg (some h) (some t) true outcome s).2.2 = some pnl ∧
      pnl.id = s.panels ∧ pnl.id ≠ p) := by
  refine ⟨?_, ?_, rfl, ?_, ?_, ?_⟩
  · intro s0 h0
    simp [previewPanelFor, h0]
  · simp [previewPanelFor, htr]
  · simp [previewPanelFor, disposePreview]
  · simp only [getPageViewRun]
    rw [if_neg ht]
    rcases outcome with re | e
    · rcases re with ⟨pn?, err⟩
      rcases pn? with _ | pn <;> rfl
    · rfl
  · have hne : s.panels ≠ p := fun hq => absurd hlt (by omega)
    simp only [getPageViewRun]
    rw [if_neg ht]
    rcases outcome with re | e
    · rcases re with ⟨pn?, err⟩
      rcases pn? with _ | pn
      · exact ⟨_, rfl, rfl, hne⟩
      · exact ⟨_, rfl, rfl, hne⟩
    · exact ⟨_, rfl, rfl, hne⟩

/-- Witness for `preview_session_tracking` at a concrete state tracking
panel 0. -/
theorem preview_session_tracking_witness :
    ({ tracked := some 0, panels := 1 } : ExtState).tracked = some 0 ∧ 0 < 1 ∧
    ("T" : String) ≠ "" ∧
    (previewPanelFor { tracked := some 0, panels := 1 } =
        ([], { tracked := some 0, panels := 1 },
          { id := 0, html := "", title := previewViewerTitle }) ∧
      (getPageViewRun {} (some "w") (some "T") true (.resolve reHi)
          { tracked := some 0, panels := 1 }).2.1.tracked = some 0) := by
  refine ⟨rfl, by decide, by decide, ?_, ?_⟩
  · exact (preview_session_tracking {} { tracked := some 0, panels := 1 } 0 "w" "T"
      (.resolve reHi) rfl (by decide) (by decide)).2.1
  · exact (preview_session_tracking {} { tracked := some 0, panels := 1 } 0 "w" "T"
      (.resolve reHi) rfl (by decide) (by decide)).2.2.2.2.1

/-! ## The silent-precondition claim -/

/-- C9 counterexample: `writePage` with no active document (a missing
precondition) surfaces a warning message — it is not a silent no-op. -/
theorem silent_precondition_cex :
    writePageRun none true (some "T") (some "s") =
      [Event.warnMsg "There is no active text editor."] ∧
    ((writePageRun none true (some "T") (some "s")).any isMessageEv) = true := by
  exact ⟨rfl, by decide⟩

/-- C9 amended: the preview/page-view entry points return silently (no events,
state unchanged) on a missing host, missing or empty document text, missing
or empty title input, and — for the page viewer — a missing bot; `getPreview`
with a missing bot emits no message and no request but may already have
created and tracked the preview panel; `writePage` is *not* silent on a
missing document or missing login (it surfaces a warning) and returns
silently on cancelled or empty title input. -/
theorem silent_precondition_amended (cfg : Config) (s : ExtState)
    (docText title summary : Option String) (botOk b : Bool)
    (outcome : RequestOutcome) (h t c : String) (ht : t ≠ "") :
    getPreviewRun cfg none docText botOk outcome s = ([], s, none) ∧
    getPreviewRun cfg (some h) none botOk outcome s = ([], s, none) ∧
    getPreviewRun cfg (some h) (some "") botOk outcome s = ([], s, none) ∧
    ((getPreviewRun cfg (some h) (some t) false outcome s).1.all
        (fun e => !(isMessageEv e) && !(isRequestEv e)) = true ∧
      (getPreviewRun cfg (some h) (some t) false outcome s).1 = (previewPanelFor s).1) ∧
    getPageViewRun cfg none title botOk outcome s = ([], s, none) ∧
    getPageViewRun cfg (some h) none botOk outcome s = ([], s, none) ∧
    getPageViewRun cfg (some h) (some "") botOk outcome s = ([], s, none) ∧
    getPageViewRun cfg (some h) (some t) false outcome s = ([], s, none) ∧
    writePageRun none b title summary =
      [Event.warnMsg "There is no active text editor."] ∧
    writePageRun (some c) false title summary =
      [Event.warnMsg "You are not logged in. Please log in and try again."] ∧
    writePageRun (some c) true none summary = [] ∧
    writePageRun (some c) true (some "") summary = [] := by
  refine ⟨rfl, rfl, by simp [getPreviewRun], ?_, rfl, rfl, by simp [getPageViewRun],
    ?_, rfl, by simp [writePageRun], rfl, by simp [writePageRun]⟩
  · constructor
    · simp only [getPreviewRun]
      rw [if_neg ht]
      rcases s with ⟨tr, np⟩
      rcases tr with _ | pid <;> simp [previewPanelFor, isMessageEv, isRequestEv]
    · simp only [getPreviewRun]
      rw [if_neg ht]
      rfl
  · simp only [getPageViewRun]
    rw [if_neg ht]
    rfl

/-- Witness for `silent_precondition_amended` at concrete inputs. -/
theorem silent_precondition_amended_witness :
    ("doc" : String) ≠ "" ∧
    (getPreviewRun {} none (some "doc") true (.resolve reHi) {} = ([], {}, none) ∧
      writePageRun none true (some "P") (some "s") =
        [Event.warnMsg "There is no active text editor."] ∧
      writePageRun (some "body") true (some "") (some "s") = []) := by
  refine ⟨by decide, ?_, ?_, ?_⟩
  · exact (silent_precondition_amended {} {} (some "doc") (some "P") (some "s")
      true true (.resolve reHi) "w" "doc" "body" (by decide)).1
  · exact (silent_precondition_amended {} {} (some "doc") (some "P") (some "s")
      true true (.resolve reHi) "w" "doc" "body" (by decide)).2.2.2.2.2.2.2.2.1
  · exact (silent_precondition_amended {} {} (some "doc") (some "P") (some "s")
      true true (.resolve reHi) "w" "doc" "body" (by decide)).2.2.2.2.2.2.2.2.2.2.2

/-! ## The PAGE_INFO-stripping claim -/

/-- C10: every live-preview request sends exactly the active document's text
with the first PAGE_INFO block (and its trailing whitespace) removed: the
single `request` event of the trace carries `text = stripPageInfo docText`,
while the document value itself is read-only in this flow. -/
theorem preview_sends_stripped (cfg : Config) (s : ExtState) (h t : String)
    (outcome : RequestOutcome) (ht : t ≠ "") :
    Event.request (previewArgs cfg (stripPageInfo t)) ∈
      (getPreviewRun cfg (some h) (some t) true outcome s).1 ∧
    (∀ a : ParseArgs,
      Event.request a ∈ (getPreviewRun cfg (some h) (some t) true outcome s).1 →
      a = previewArgs cfg (stripPageInfo t)) ∧
    (previewArgs cfg (stripPageInfo t)).text = some (stripPageInfo t) := by
  have hrun : ∀ (s3 : ExtState) (pa : Sum Panel String) (vt2 base2 : String)
      (args2 : ParseArgs),
      Event.request args2 ∈ (getViewRun cfg s3 pa vt2 base2 args2 outcome).1 ∧
      ∀ a, Event.request a ∈ (getViewRun cfg s3 pa vt2 base2 args2 outcome).1 →
        a = args2 := by
    intro s3 pa vt2 base2 args2
    rcases pa with p | lbl <;> rcases outcome with re | e <;>
      [rcases re with ⟨pn?, err⟩; skip; rcases re with ⟨pn?, err⟩; skip] <;>
      [rcases pn? with _ | pn; skip; rcases pn? with _ | pn; skip]
    all_goals constructor
    all_goals simp [getViewRun]
  have hsel : ∀ e ∈ (previewPanelFor s).1, isRequestEv e = false := by
    unfold previewPanelFor
    rcases htr : s.tracked with _ | pid <;> simp [isRequestEv]
  refine ⟨?_, ?_, rfl⟩
  · simp only [getPreviewRun]
    rw [if_neg ht]
    exact List.mem_append_right _
      (hrun (previewPanelFor s).2.1 (.inl (previewPanelFor s).2.2) previewViewerTitle
        (cfg.transferProtocol ++ h ++ cfg.articlePath)
        (previewArgs cfg (stripPageInfo t))).1
  · simp only [getPreviewRun]
    rw [if_neg ht]
    intro a ha
    rcases List.mem_append.mp ha with h1 | h2
    · have := hsel _ h1
      simp [isRequestEv] at this
    · exact (hrun (previewPanelFor s).2.1 (.inl (previewPanelFor s).2.2) previewViewerTitle
        (cfg.transferProtocol ++ h ++ cfg.articlePath)
        (previewArgs cfg (stripPageInfo t))).2 a h2

/-- Witness for `preview_sends_stripped`: on a document carrying a PAGE_INFO
block the request's text is the document text with the block removed. -/
theorem preview_sends_stripped_witness :
    ("<%-- [PAGE_INFO] a=b [END_PAGE_INFO] --%>  body" : String) ≠ "" ∧
    stripPageInfo "<%-- [PAGE_INFO] a=b [END_PAGE_INFO] --%>  body" = "body" ∧
    (previewArgs {} (stripPageInfo "<%-- [PAGE_INFO] a=b [END_PAGE_INFO] --%>  body")).text =
      some (stripPageInfo "<%-- [PAGE_INFO] a=b [END_PAGE_INFO] --%>  body") := by
  refine ⟨by decide, by decide, ?_⟩
  exact (preview_sends_stripped {} {} "w"
    "<%-- [PAGE_INFO] a=b [END_PAGE_INFO] --%>  body" (.resolve reHi) (by decide)).2.2

/-! ## The decode-totality claim -/

theorem seqAccess_ok (x : Except String Jv) (v : Jv) (f : Jv → Except String ExtractOut)
    (h : x = .ok v) : seqAccess x f = f v := by
  subst h
  rfl

/-- `keepStrJv` yields a string or `undefined`. -/
theorem keepStrJv_shape (o : Option Jv) :
    (∃ s : String, keepStrJv o = .jstr s) ∨ keepStrJv o = .undefined := by
  rcases o with _ | v
  · exact Or.inr rfl
  · cases v with
    | jstr s => exact Or.inl ⟨s, rfl⟩
    | undefined => exact Or.inr rfl
    | jnull => exact Or.inr rfl
    | jbool b => exact Or.inr rfl
    | jnum n => exact Or.inr rfl
    | jarr xs => exact Or.inr rfl
    | jobj fs => exact Or.inr rfl

/-- Reading `?.["*"]` off a normalized star node never throws, and yields a
string or `undefined`. -/
theorem starNodeJv_access (o : Option Jv) :
    ∃ w : Jv, jsGetFieldOpt (starNodeJv o) "*" = .ok w ∧
      ((∃ s : String, w = .jstr s) ∨ w = .undefined) := by
  rcases o with _ | v
  · exact ⟨.undefined, rfl, Or.inr rfl⟩
  · cases v with
    | jobj fs => exact ⟨keepStrJv (fs.lookup "*"), rfl, keepStrJv_shape (fs.lookup "*")⟩
    | jstr s => exact ⟨.undefined, rfl, Or.inr rfl⟩
    | undefined => exact ⟨.undefined, rfl, Or.inr rfl⟩
    | jnull => exact ⟨.undefined, rfl, Or.inr rfl⟩
    | jbool b => exact ⟨.undefined, rfl, Or.inr rfl⟩
    | jnum n => exact ⟨.undefined, rfl, Or.inr rfl⟩
    | jarr xs => exact ⟨.undefined, rfl, Or.inr rfl⟩

/-- `?.replace` never throws on a string-or-`undefined` receiver. -/
theorem jsCallReplace_ok (w : Jv) (hw : (∃ s : String, w = .jstr s) ∨ w = .undefined)
    (pat repl : String) : ∃ u : Jv, jsCallReplace w pat repl = .ok u := by
  rcases hw with ⟨s, rfl⟩ | rfl
  · exact ⟨_, rfl⟩
  · exact ⟨_, rfl⟩

/-- The `getView` access chain never throws on a normalized result. -/
theorem getViewExtract_total (cfg : Config) (vt baseURI : String) (raw : Jv) :
    (getViewExtract cfg vt baseURI (normGetView raw)).isOk = true := by
  unfold getViewExtract
  rw [seqAccess_ok (jsGetField (normGetView raw) "parse")
    (normParse ((jvFields raw).lookup "parse")) _ rfl]
  rcases hL : (jvFields raw).lookup "parse" with _ | v
  · rfl
  · cases v with
    | jobj pfs =>
      rw [if_pos (show jvTruthy (normParse (some (Jv.jobj pfs))) = true from rfl)]
      rw [seqAccess_ok (jsGetField (normParse (some (.jobj pfs))) "headhtml")
        (starNodeJv (pfs.lookup "headhtml")) _ rfl]
      obtain ⟨w, hw, hws⟩ := starNodeJv_access (pfs.lookup "headhtml")
      rw [seqAccess_ok _ w _ hw]
      obtain ⟨u, hu⟩ := jsCallReplace_ok w hws "<head>"
        ("<head>" ++ baseElemOf baseURI ++ styleOf cfg)
      rw [seqAccess_ok _ u _ hu]
      rw [seqAccess_ok (jsGetField (normParse (some (.jobj pfs))) "text")
        (starNodeJv (pfs.lookup "text")) _ rfl]
      obtain ⟨w2, hw2, -⟩ := starNodeJv_access (pfs.lookup "text")
      rw [seqAccess_ok _ w2 _ hw2]
      rw [seqAccess_ok (jsGetField (normParse (some (.jobj pfs))) "categorieshtml")
        (starNodeJv (pfs.lookup "categorieshtml")) _ rfl]
      obtain ⟨w3, hw3, -⟩ := starNodeJv_access (pfs.lookup "categorieshtml")
      rw [seqAccess_ok _ w3 _ hw3]
      rw [seqAccess_ok (jsGetField (normParse (some (.jobj pfs))) "displaytitle")
        (keepStrJv (pfs.lookup "displaytitle")) _ rfl]
      rfl
    | jstr s => rfl
    | undefined => rfl
    | jnull => rfl
    | jbool b => rfl
    | jnum n => rfl
    | jarr xs => rfl

/-- The `viewPage` parse-branch access chain never throws on a normalized
result. -/
theorem viewPageParsePart_total (cfg : Config) (raw : Jv) :
    (viewPageParsePart cfg (normGetView raw)).isOk = true := by
  unfold viewPageParsePart
  rw [seqAccess_ok (jsGetField (normGetView raw) "parse")
    (normParse ((jvFields raw).lookup "parse")) _ rfl]
  rcases hL : (jvFields raw).lookup "parse" with _ | v
  · rfl
  · cases v with
    | jobj pfs =>
      rw [if_pos (show jvTruthy (normParse (some (Jv.jobj pfs))) = true from rfl)]
      cases hc : cfg.getCss
      · rw [if_neg (show ¬ (false = true) from Bool.false_ne_true)]
        rw [seqAccess_ok (jsGetField (normParse (some (.jobj pfs))) "text")
          (starNodeJv (pfs.lookup "text")) _ rfl]
        obtain ⟨w2, hw2, -⟩ := starNodeJv_access (pfs.lookup "text")
        rw [seqAccess_ok _ w2 _ hw2]
        rw [seqAccess_ok (jsGetField (normParse (some (.jobj pfs))) "displaytitle")
          (keepStrJv (pfs.lookup "displaytitle")) _ rfl]
        rfl
      · rw [if_pos (show (true : Bool) = true from rfl)]
        rw [seqAccess_ok (jsGetField (normParse (some (.jobj pfs))) "headhtml")
          (starNodeJv (pfs.lookup "headhtml")) _ rfl]
        obtain ⟨w, hw, -⟩ := starNodeJv_access (pfs.lookup "headhtml")
        rw [seqAccess_ok _ w _ hw]
        rw [seqAccess_ok (jsGetField (normParse (some (.jobj pfs))) "text")
          (starNodeJv (pfs.lookup "text")) _ rfl]
        obtain ⟨w2, hw2, -⟩ := starNodeJv_access (pfs.lookup "text")
        rw [seqAccess_ok _ w2 _ hw2]
        rw [seqAccess_ok (jsGetField (normParse (some (.jobj pfs))) "displaytitle")
          (keepStrJv (pfs.lookup "displaytitle")) _ rfl]
        rfl
    | jstr s => rfl
    | undefined => rfl
    | jnull => rfl
    | jbool b => rfl
    | jnum n => rfl
    | jarr xs => rfl

/-- C4: decoding is total — for every raw response value (objects with
arbitrarily missing intermediate nodes or payload fields, or non-objects
altogether), the normalizing converter followed by the member-access chains
of `getView` and `viewPage` never throws: every access evaluates to `.ok`,
absent fields degrading to `undefined`. -/
theorem decode_total (cfg : Config) (vt baseURI : String) (raw : Jv) :
    (getViewExtract cfg vt baseURI (normGetView raw)).isOk = true ∧
    (viewPageExtract cfg (normGetView raw)).isOk = true := by
  refine ⟨getViewExtract_total cfg vt baseURI raw, ?_⟩
  unfold viewPageExtract
  rw [seqAccess_ok (jsGetField (normGetView raw) "error")
    (normError ((jvFields raw).lookup "error")) _ rfl]
  rcases hE : (jvFields raw).lookup "error" with _ | ev
  · exact viewPageParsePart_total cfg raw
  · cases ev with
    | jobj efs =>
      rw [if_pos (show jvTruthy (normError (some (Jv.jobj efs))) = true from rfl)]
      rw [seqAccess_ok (jsGetField (normError (some (.jobj efs))) "code")
        (keepStrJv (efs.lookup "code")) _ rfl]
      rw [seqAccess_ok (jsGetField (normError (some (.jobj efs))) "info")
        (keepStrJv (efs.lookup "info")) _ rfl]
      rfl
    | jstr s2 => exact viewPageParsePart_total cfg raw
    | undefined => exact viewPageParsePart_total cfg raw
    | jnull => exact viewPageParsePart_total cfg raw
    | jbool b => exact viewPageParsePart_total cfg raw
    | jnum n => exact viewPageParsePart_total cfg raw
    | jarr xs => exact viewPageParsePart_total cfg raw

/-! ## The missing-page claim -/

/-- C8: for every response (with the interwiki and page-presence guards
passed) whose page carries a `missing` or `invalid` flag, `readPage` yields
exactly one warning-class result whose text embeds the attempted title and
any supplied invalid-reason string, and opens no document. -/
theorem missing_page_warning (tt ttl : String) (re : ReadPageResult) (q : QueryNode)
    (pl : List PageNode) (pg0 : PageNode) (d : PageAttr)
    (htt : tt ≠ "")
    (hq : readQ0 re = some q)
    (hiw : q.interwiki = none)
    (hpg : (q.pages.bind (fun l => l.get? 0)).bind PagesNode.page = some pl)
    (hp0 : pl.get? 0 = some pg0)
    (hd : pg0.dollar = some d)
    (hmi : d.missing.isSome ∨ d.invalid.isSome)
    (htl : d.title = some ttl) :
    readPageRun (some tt) re =
      [Event.warnMsg (missingPageMsg (some ttl) d.invalidreason)] ∧
    (∃ a b : String, missingPageMsg (some ttl) d.invalidreason = a ++ ttl ++ b) ∧
    (∀ r : String, d.invalidreason = some r →
      ∃ a b : String, missingPageMsg (some ttl) d.invalidreason = a ++ r ++ b) ∧
    ∀ e ∈ readPageRun (some tt) re, isOpenDocEv e = false := by
  have hattrs : pageAttrs pl = some d := by
    unfold pageAttrs
    rw [hp0, Option.some_bind, hd]
  have hout : readPageOutcome re =
      [Event.warnMsg (missingPageMsg (some ttl) d.invalidreason)] := by
    unfold readPageOutcome
    simp only [hq, Option.some_bind, hiw, hpg, hattrs, htl]
    rw [if_pos hmi]
  have hrun : readPageRun (some tt) re =
      [Event.warnMsg (missingPageMsg (some ttl) d.invalidreason)] := by
    simp only [readPageRun]
    rw [if_neg htt, hout]
  have hne2 : ("The page \"" ++ jsTemplate (some ttl) ++
      "\" you are looking for does not exist." ++ jsTemplate d.invalidreason) ≠ "" := by
    intro hx
    have hdata : ("The page \"" ++ jsTemplate (some ttl) ++
        "\" you are looking for does not exist." ++
        jsTemplate d.invalidreason).data = [] := by
      rw [hx]
    rw [String.data_append, String.data_append, String.data_append] at hdata
    rcases List.append_eq_nil.mp hdata with ⟨h1, -⟩
    rcases List.append_eq_nil.mp h1 with ⟨h2, -⟩
    rcases List.append_eq_nil.mp h2 with ⟨h3, -⟩
    exact absurd h3 (by decide)
  have hmsg : missingPageMsg (some ttl) d.invalidreason =
      "The page \"" ++ jsTemplate (some ttl) ++
        "\" you are looking for does not exist." ++ jsTemplate d.invalidreason := by
    unfold missingPageMsg jsOrElse
    rw [if_neg hne2]
  refine ⟨hrun, ?_, ?_, ?_⟩
  · refine ⟨"The page \"", "\" you are looking for does not exist." ++
      jsTemplate d.invalidreason, ?_⟩
    rw [hmsg]
    simp [jsTemplate, String.append_assoc]
  · intro r hr
    refine ⟨"The page \"" ++ jsTemplate (some ttl) ++
      "\" you are looking for does not exist.", "", ?_⟩
    rw [hmsg, hr]
    simp [jsTemplate, String.append_empty]
  · intro e he
    rw [hrun] at he
    simp only [List.mem_singleton] at he
    subst he
    rfl

/-- Concrete attribute bag of a missing page, for the witness. -/
def attr8 : PageAttr := { title := some "Foo", missing := some "", invalidreason := some "bad" }

def page8 : PageNode := { dollar := some attr8 }

def query8 : QueryNode := { pages := some [{ page := some [page8] }] }

def re8 : ReadPageResult := { api := some { query := some [query8] } }

/-- Witness for `missing_page_warning` at a concrete missing-page response:
the single warning embeds the title `Foo` and the reason `bad` (note the
source appends the raw `invalidreason` directly). -/
theorem missing_page_warning_witness :
    ("Foo" : String) ≠ "" ∧ readQ0 re8 = some query8 ∧ query8.interwiki = none ∧
    (query8.pages.bind (fun l => l.get? 0)).bind PagesNode.page = some [page8] ∧
    ([page8].get? 0 = some page8) ∧ page8.dollar = some attr8 ∧
    (attr8.missing.isSome ∨ attr8.invalid.isSome) ∧ attr8.title = some "Foo" ∧
    readPageRun (some "Foo") re8 =
      [Event.warnMsg "The page \"Foo\" you are looking for does not exist.bad"] := by
  refine ⟨by decide, rfl, rfl, rfl, rfl, rfl, Or.inl rfl, rfl, ?_⟩
  rw [(missing_page_warning "Foo" "Foo" re8 query8 [page8] page8 attr8
    (by decide) rfl rfl rfl rfl rfl (Or.inl rfl) rfl).1]
  decide

end Wikitext